import Mathlib

/-!
# Verification of the BAR burn-after-reading container engine

This file gives a shallow embedding, in Lean, of the core of the
`Mrtracker-new/BAR_RYY` repository (backend Python code) and proves the
specification's testable properties against it.

Modelling conventions, used throughout:

* Python `bytes` and `str` values are modelled as `List Nat` (`Bytes`): a byte
  string is its list of byte values, a text string is its list of code points.
* The external cryptographic primitives (SHA-256, HMAC-SHA256, PBKDF2, Fernet
  authenticated encryption) are not part of this repository; they are modelled
  as concrete *collision-free idealisations*: injective functions with exactly
  the interface the repository code relies on (determinism, injectivity, and —
  for Fernet — decryption succeeding only with the encryption key).
* The Python standard library serialisation layer (`json.dumps`/`json.loads`,
  `base64.b64encode`/`b64decode`) is likewise external; it is modelled by a
  concrete invertible byte coding with explicit encoders and decoders, and the
  inverse laws are *proved*, not assumed.
* Wall-clock timestamps (ISO-8601 strings compared after `datetime` parsing)
  are modelled as integers with the same ordering.
* Stateful code (the SQL view ledger, the in-memory brute-force store, the
  file system touched by secure deletion) is modelled by explicit state
  passing; each SQL statement of the source is one atomic step function.
-/

/-- Python `bytes`/`str` values: list of byte values / code points. -/
abbrev Bytes : Type := List Nat

/-- A JSON scalar as it occurs in a `.bar` container structure:
a (text) string, an integer, a boolean, or `null`.  Strings are carried as
their code-point lists (`Bytes`). -/
inductive JScalar : Type where
  | str (b : Bytes)
  | num (n : Int)
  | boolean (b : Bool)
  | null
  deriving DecidableEq, Repr

/-- A JSON value one level deep: a scalar or a flat object.  The `.bar`
structure is a two-level JSON document (the metadata dictionary of scalars
nested inside the top-level dictionary), so this shape covers every document
the codec produces, and the documents a tampered container can parse to are
modelled within the same shape. -/
inductive JVal : Type where
  | sc (v : JScalar)
  | obj (o : List (Bytes × JScalar))
  deriving DecidableEq, Repr

/-- A flat JSON object (e.g. the metadata dictionary). -/
abbrev JObj : Type := List (Bytes × JScalar)

/-- The top-level `.bar` JSON document. -/
abbrev JDoc : Type := List (Bytes × JVal)

/-- First-match association-list lookup, modelling a Python dictionary read
`d[k]` / `d.get(k)` (the dictionaries built by the codec have distinct keys). -/
def jlookup {α : Type} (l : List (Bytes × α)) (k : Bytes) : Option α :=
  match l with
  | [] => none
  | (k', v) :: rest => if k = k' then some v else jlookup rest k

@[simp] theorem jlookup_nil {α : Type} (k : Bytes) :
    jlookup ([] : List (Bytes × α)) k = none := rfl

@[simp] theorem jlookup_cons {α : Type} (k k' : Bytes) (v : α) (rest : List (Bytes × α)) :
    jlookup ((k', v) :: rest) k = if k = k' then some v else jlookup rest k := rfl

/-! ## Byte constants

The string constants of `crypto_utils.py`, as code-point lists
(`"metadata"`, `"encrypted_data"`, `"encryption_method"`, `"salt"`,
`"encryption_key"`, `"hmac_signature"`, `"password_derived"`, `"key_stored"`,
`"password_hash"`, and the `b"BAR_FILE_V1\n"` header). -/

def kMetadata : Bytes := [109, 101, 116, 97, 100, 97, 116, 97]
def kEncryptedData : Bytes := [101, 110, 99, 114, 121, 112, 116, 101, 100, 95, 100, 97, 116, 97]
def kEncryptionMethod : Bytes := [101, 110, 99, 114, 121, 112, 116, 105, 111, 110, 95, 109, 101, 116, 104, 111, 100]
def kSalt : Bytes := [115, 97, 108, 116]
def kEncryptionKey : Bytes := [101, 110, 99, 114, 121, 112, 116, 105, 111, 110, 95, 107, 101, 121]
def kHmacSignature : Bytes := [104, 109, 97, 99, 95, 115, 105, 103, 110, 97, 116, 117, 114, 101]
def kPasswordDerived : Bytes := [112, 97, 115, 115, 119, 111, 114, 100, 95, 100, 101, 114, 105, 118, 101, 100]
def kKeyStored : Bytes := [107, 101, 121, 95, 115, 116, 111, 114, 101, 100]
def kPasswordHash : Bytes := [112, 97, 115, 115, 119, 111, 114, 100, 95, 104, 97, 115, 104]

/-- The 12-byte magic prefix `b"BAR_FILE_V1\n"` prepended by `pack_bar_file`. -/
def barHeader : Bytes := [66, 65, 82, 95, 70, 73, 76, 69, 95, 86, 49, 10]

/-! ## External cryptographic primitives (idealised)

These functions live outside the repository (`hashlib`, `hmac`,
`cryptography.fernet`, PBKDF2).  The code under verification relies only on
their determinism, their collision resistance, and (for Fernet) on
authenticated decryption succeeding exactly with the encryption key; the
idealisations below realise those contracts with injective codings. -/

/-- Idealisation of `hashlib.sha256(data).hexdigest()`
(`calculate_file_hash`, and the password-hash comparison in
`unpack_bar_file`): a collision-free digest, realised injectively. -/
def sha256Hex (data : Bytes) : Bytes := 0 :: data

/-- Idealisation of `hmac.new(key, data, hashlib.sha256).hexdigest()`
(`generate_hmac_signature` in `crypto_utils.py`): a keyed digest,
collision-free jointly in key and data. -/
def hmacSha256Hex (key data : Bytes) : Bytes := 1 :: key.length :: (key ++ data)

/-- Idealisation of `derive_key_from_password` (PBKDF2-HMAC-SHA256 followed by
url-safe base64): a key derivation injective in (password, salt). -/
def deriveKeyFromPassword (password salt : Bytes) : Bytes :=
  2 :: password.length :: (password ++ salt)

/-- Idealisation of `Fernet(key).encrypt(data)` (`encrypt_file`):
authenticated encryption.  The token determines (and commits to) the key and
the plaintext. -/
def fernetEncrypt (data key : Bytes) : Bytes := key.length :: (key ++ data)

/-- Idealisation of `Fernet(key).decrypt(token)` (`decrypt_file`):
authenticated decryption, returning `none` (Python: raising `InvalidToken`)
unless `token` was produced by `fernetEncrypt` under the same `key`. -/
def fernetDecrypt (token key : Bytes) : Option Bytes :=
  match token with
  | [] => none
  | n :: rest =>
    if n = key.length ∧ rest.take n = key then some (rest.drop n) else none

theorem fernetDecrypt_fernetEncrypt (data key : Bytes) :
    fernetDecrypt (fernetEncrypt data key) key = some data := by
  simp [fernetDecrypt, fernetEncrypt]

/-! ## Standard-library serialisation layer (modelled)

`pack_bar_file` stores the structure as
`base64.b64encode(json.dumps(bar_structure, indent=2).encode('utf-8'))` and
`unpack_bar_file` reverses this with `base64.b64decode` + `json.loads`; the
HMAC is computed over `json.dumps(structure, sort_keys=True,
separators=(',', ':')).encode('utf-8')`.  These stdlib codecs are modelled by
the concrete invertible byte codings below: `jsonDumpsPretty`/`jsonLoads` is
the storage serialisation (an injective coding with a verified decoder), and
`jsonDumpsCanonical` is the deterministic canonical serialisation used for
signing (keys sorted, as `sort_keys=True` does). -/

/-- Serialisation of a JSON scalar (model of the stdlib encoder). -/
def encScalar : JScalar → Bytes
  | .str b => 0 :: b.length :: b
  | .num n => if 0 ≤ n then [1, n.toNat] else [2, (-n).toNat]
  | .boolean b => [3, cond b 1 0]
  | .null => [4]

/-- Decoder matching `encScalar`; returns the value and the unconsumed rest. -/
def decScalar : Bytes → Option (JScalar × Bytes)
  | 0 :: n :: rest =>
    if n ≤ rest.length then some (.str (rest.take n), rest.drop n) else none
  | 1 :: n :: rest => some (.num (Int.ofNat n), rest)
  | 2 :: n :: rest => some (.num (-(Int.ofNat n)), rest)
  | 3 :: b :: rest =>
    if b = 1 then some (.boolean true, rest)
    else if b = 0 then some (.boolean false, rest) else none
  | 4 :: rest => some (.null, rest)
  | _ => none

theorem decScalar_encScalar (v : JScalar) (rest : Bytes) :
    decScalar (encScalar v ++ rest) = some (v, rest) := by
  cases v with
  | str b => simp [encScalar, decScalar]
  | num n =>
    by_cases h : 0 ≤ n
    · simp only [encScalar, if_pos h]
      simp [decScalar, Int.toNat_of_nonneg h]
    · simp only [encScalar, if_neg h]
      have hn : ((-n).toNat : Int) = -n := Int.toNat_of_nonneg (by omega)
      simp [decScalar, hn]
  | boolean b => cases b <;> simp [encScalar, decScalar]
  | null => simp [encScalar, decScalar]

/-- Serialisation of one flat-object entry (key, framed like a string scalar,
followed by the scalar value). -/
def encEntryS (e : Bytes × JScalar) : Bytes :=
  encScalar (.str e.1) ++ encScalar e.2

/-- Serialisation of a flat JSON object. -/
def encObj (o : JObj) : Bytes :=
  o.length :: (o.map encEntryS).flatten

/-- Decoder for `n` flat-object entries. -/
def decEntriesS : Nat → Bytes → Option (JObj × Bytes)
  | 0, rest => some ([], rest)
  | n + 1, b =>
    match decScalar b with
    | some (.str k, rest) =>
      match decScalar rest with
      | some (v, rest') =>
        match decEntriesS n rest' with
        | some (o, rest'') => some ((k, v) :: o, rest'')
        | none => none
      | none => none
    | _ => none

/-- Decoder matching `encObj`. -/
def decObj : Bytes → Option (JObj × Bytes)
  | n :: rest => decEntriesS n rest
  | [] => none

theorem decEntriesS_encEntries (o : JObj) (rest : Bytes) :
    decEntriesS o.length ((o.map encEntryS).flatten ++ rest) = some (o, rest) := by
  induction o with
  | nil => simp [decEntriesS]
  | cons e tl ih =>
    obtain ⟨k, v⟩ := e
    simp only [List.map_cons, List.flatten_cons, List.length_cons, encEntryS,
      List.append_assoc]
    simp only [decEntriesS, decScalar_encScalar, ih]

theorem decObj_encObj (o : JObj) (rest : Bytes) :
    decObj (encObj o ++ rest) = some (o, rest) := by
  simp only [encObj, List.cons_append, decObj]
  exact decEntriesS_encEntries o rest

/-- Serialisation of a one-level JSON value. -/
def encVal : JVal → Bytes
  | .sc v => 0 :: encScalar v
  | .obj o => 1 :: encObj o

/-- Decoder matching `encVal`. -/
def decVal : Bytes → Option (JVal × Bytes)
  | 0 :: rest =>
    match decScalar rest with
    | some (v, rest') => some (.sc v, rest')
    | none => none
  | 1 :: rest =>
    match decObj rest with
    | some (o, rest') => some (.obj o, rest')
    | none => none
  | _ => none

theorem decVal_encVal (v : JVal) (rest : Bytes) :
    decVal (encVal v ++ rest) = some (v, rest) := by
  cases v with
  | sc s => simp [encVal, decVal, decScalar_encScalar]
  | obj o => simp [encVal, decVal, decObj_encObj]

/-- Serialisation of one top-level entry (key, framed like a string scalar,
followed by the value). -/
def encEntryV (e : Bytes × JVal) : Bytes :=
  encScalar (.str e.1) ++ encVal e.2

/-- Decoder for `n` top-level entries. -/
def decEntriesV : Nat → Bytes → Option (JDoc × Bytes)
  | 0, rest => some ([], rest)
  | n + 1, b =>
    match decScalar b with
    | some (.str k, rest) =>
      match decVal rest with
      | some (v, rest') =>
        match decEntriesV n rest' with
        | some (d, rest'') => some ((k, v) :: d, rest'')
        | none => none
      | none => none
    | _ => none

theorem decEntriesV_encEntries (d : JDoc) (rest : Bytes) :
    decEntriesV d.length ((d.map encEntryV).flatten ++ rest) = some (d, rest) := by
  induction d with
  | nil => simp [decEntriesV]
  | cons e tl ih =>
    obtain ⟨k, v⟩ := e
    simp only [List.map_cons, List.flatten_cons, List.length_cons, encEntryV,
      List.append_assoc]
    simp only [decEntriesV, decScalar_encScalar, decVal_encVal, ih]

/-- Model of `json.dumps(structure, indent=2).encode('utf-8')`: the storage
serialisation of the top-level document (insertion order preserved). -/
def jsonDumpsPretty (d : JDoc) : Bytes :=
  d.length :: (d.map encEntryV).flatten

/-- Model of `json.loads` on the storage serialisation: decodes a top-level
document, failing (Python: `json.JSONDecodeError`) on anything else. -/
def jsonLoads (b : Bytes) : Option JDoc :=
  match b with
  | n :: rest =>
    match decEntriesV n rest with
    | some (d, []) => some d
    | _ => none
  | [] => none

theorem jsonLoads_jsonDumpsPretty (d : JDoc) :
    jsonLoads (jsonDumpsPretty d) = some d := by
  have h := decEntriesV_encEntries d []
  simp only [List.append_nil] at h
  simp [jsonLoads, jsonDumpsPretty, h]

/-- Insertion of an entry into an assoc list sorted by key (lexicographic
order on the key's byte list), used to model `sort_keys=True`. -/
def insortEntry {α : Type} (e : Bytes × α) : List (Bytes × α) → List (Bytes × α)
  | [] => [e]
  | e' :: rest =>
    if List.Lex (· < ·) e.1 e'.1 then e :: e' :: rest
    else e' :: insortEntry e rest

/-- Insertion sort by key, used to model `sort_keys=True`. -/
def sortByKeys {α : Type} (l : List (Bytes × α)) : List (Bytes × α) :=
  match l with
  | [] => []
  | e :: rest => insortEntry e (sortByKeys rest)

/-- Model of `json.dumps(structure, sort_keys=True, separators=(',', ':'))
.encode('utf-8')`: the deterministic canonical serialisation that
`pack_bar_file` signs and `unpack_bar_file` re-computes for verification.
Keys are sorted at both levels, as `sort_keys=True` sorts recursively. -/
def jsonDumpsCanonical (d : JDoc) : Bytes :=
  jsonDumpsPretty
    ((sortByKeys d).map (fun e =>
      match e.2 with
      | .obj o => (e.1, JVal.obj (sortByKeys o))
      | v => (e.1, v)))

/-- Model of `base64.b64encode`: an invertible obfuscation coding. -/
def b64encode (b : Bytes) : Bytes := b.length :: b

/-- Model of `base64.b64decode`, failing (Python: `binascii.Error`) on input
not produced by `b64encode`. -/
def b64decode (b : Bytes) : Option Bytes :=
  match b with
  | n :: rest => if rest.length = n then some rest else none
  | [] => none

theorem b64decode_b64encode (b : Bytes) : b64decode (b64encode b) = some b := by
  simp [b64decode, b64encode]

/-! ## Container Codec (`backend/utils/crypto_utils.py`)

`pack_bar_file` / `unpack_bar_file`, translated line by line.  Python strings
are `Bytes`; a `None`-able `password: str = None` parameter is
`Option Bytes`, and Python truthiness (`if password:` rejecting both `None`
and `""`) is `pwTruthy`. -/

/-- Python truthiness of an optional string: `None` and `""` are falsy. -/
def pwTruthy : Option Bytes → Bool
  | none => false
  | some b => !b.isEmpty

/-- Error raised by `pack_bar_file`
(`ValueError("Salt is required when password is provided")`). -/
inductive PackError : Type where
  | saltRequired
  deriving DecidableEq, Repr

/-- The tail of `pack_bar_file` (lines 250-267): sign the structure with the
canonical serialisation, append `hmac_signature`, serialise with the storage
serialisation, base64-obfuscate and prepend the `BAR_FILE_V1` header. -/
def finishPack (fields : JDoc) (key : Bytes) : Bytes :=
  let signature := hmacSha256Hex key (jsonDumpsCanonical fields)
  let full := fields ++ [(kHmacSignature, JVal.sc (.str signature))]
  barHeader ++ b64encode (jsonDumpsPretty full)

/-- `pack_bar_file(encrypted_data, metadata, key, password, salt)`
(crypto_utils.py lines 205-267).  Builds the structure with `metadata` and
base64-encoded `encrypted_data`; with a (truthy) password it stores
`encryption_method = "password_derived"` plus the salt (raising `ValueError`
if the salt is missing), otherwise `encryption_method = "key_stored"` plus
the key itself. -/
def packBarFile (encryptedData : Bytes) (metadata : JObj) (key : Bytes)
    (password : Option Bytes := none) (salt : Option Bytes := none) :
    Except PackError Bytes :=
  let base : JDoc :=
    [(kMetadata, JVal.obj metadata),
     (kEncryptedData, JVal.sc (.str (b64encode encryptedData)))]
  if pwTruthy password then
    match salt with
    | none => .error .saltRequired
    | some s =>
      let fields := base ++
        [(kEncryptionMethod, JVal.sc (.str kPasswordDerived)),
         (kSalt, JVal.sc (.str (b64encode s)))]
      .ok (finishPack fields key)
  else
    let fields := base ++
      [(kEncryptionMethod, JVal.sc (.str kKeyStored)),
       (kEncryptionKey, JVal.sc (.str (b64encode key)))]
    .ok (finishPack fields key)

/-- `encrypt_and_pack_with_password(file_data, metadata, password)`
(crypto_utils.py lines 174-202).  The random salt `os.urandom(32)` is an
explicit parameter (CSPRNG is external).  Derives the key, encrypts, and
packs with the password-derived method. -/
def encryptAndPackWithPassword (fileData : Bytes) (metadata : JObj)
    (password : Bytes) (salt : Bytes) : Except PackError (Bytes × Bytes × Bytes) :=
  let key := deriveKeyFromPassword password salt
  let encryptedData := fernetEncrypt fileData key
  (packBarFile encryptedData metadata key (some password) (some salt)).map
    (fun barData => (barData, salt, key))

/-- The distinct failure classes of `unpack_bar_file`:
  * `invalidFormat` — `ValueError("Invalid BAR file format")` (bad header);
  * `decodeFailure` — `base64`/`json` decoding exceptions (`binascii.Error`,
    `json.JSONDecodeError`, both `ValueError` subclasses);
  * `missingField k` — `KeyError(k)` on a required structure field;
  * `typeMismatch` — a structure field of the wrong runtime type (Python
    would raise `TypeError` from `b64decode`/`compare_digest`, or the parsed
    document is not an object);
  * `passwordRequired` — `ValueError("Password required for decryption")`;
  * `invalidPassword` — `ValueError("Invalid password")`;
  * `tamperDetected` — `TamperDetectedException` from
    `verify_hmac_signature`. -/
inductive UnpackError : Type where
  | invalidFormat
  | decodeFailure
  | missingField (k : Bytes)
  | typeMismatch
  | passwordRequired
  | invalidPassword
  | tamperDetected
  deriving DecidableEq, Repr

/-- Successful result of `unpack_bar_file`: the tuple
`(encrypted_data, metadata, key)`. -/
structure UnpackOk : Type where
  encryptedData : Bytes
  metadata : JVal
  key : Bytes
  deriving DecidableEq, Repr

/-- Header check + deobfuscation + JSON parse of `unpack_bar_file`
(crypto_utils.py lines 290-298): reject data without the `BAR_FILE_V1`
header, strip the 12 header bytes, base64-decode and `json.loads` the
structure. -/
def parseBarStruct (barData : Bytes) : Except UnpackError JDoc :=
  if barHeader.isPrefixOf barData then
    match b64decode (barData.drop 12) with
    | none => .error .decodeFailure
    | some barJson =>
      match jsonLoads barJson with
      | none => .error .decodeFailure
      | some barStruct => .ok barStruct
  else .error .invalidFormat

/-- `metadata.get("password_hash")`-style access used by the wrong-password
fast path: only a dictionary metadata value carries a password hash.
(Modelling note: Python's `"password_hash" in metadata` on a *string*
metadata value would test substring containment; that corner is modelled as
absent.) -/
def metadataPasswordHash (metadata : JVal) : Option JScalar :=
  match metadata with
  | .obj o => jlookup o kPasswordHash
  | .sc _ => none

/-- Salt extraction and key derivation of the `password_derived` branch
(crypto_utils.py lines 320-324): base64-decode `bar_structure["salt"]` and
derive the key from password and salt. -/
def saltPhase (barStruct : JDoc) (pw : Bytes) : Except UnpackError Bytes :=
  match jlookup barStruct kSalt with
  | some (.sc (.str s)) =>
    match b64decode s with
    | some salt => .ok (deriveKeyFromPassword pw salt)
    | none => .error .decodeFailure
  | some _ => .error .typeMismatch
  | none => .error (.missingField kSalt)

/-- Key resolution of `unpack_bar_file` (crypto_utils.py lines 303-328).
Reads `encryption_method` (default `"key_stored"`).  For `password_derived`:
a truthy password is required, then — *before* any key derivation — the
SHA-256 of the supplied password is compared against
`metadata["password_hash"]` when present, failing fast with
`ValueError("Invalid password")` on mismatch; only then is the salt read and
the key derived.  Otherwise the embedded `encryption_key` is base64-decoded
from the structure. -/
def resolveKey (barStruct : JDoc) (metadata : JVal) (password : Option Bytes) :
    Except UnpackError Bytes :=
  if (jlookup barStruct kEncryptionMethod).getD (JVal.sc (.str kKeyStored)) =
      JVal.sc (.str kPasswordDerived) then
    if !pwTruthy password then .error .passwordRequired
    else
      let pw := password.getD []
      match metadataPasswordHash metadata with
      | some (.str h) =>
        if sha256Hex pw ≠ h then .error .invalidPassword else saltPhase barStruct pw
      | some _ => .error .invalidPassword
      | none => saltPhase barStruct pw
  else
    match jlookup barStruct kEncryptionKey with
    | some (.sc (.str s)) =>
      match b64decode s with
      | some k => .ok k
      | none => .error .decodeFailure
    | some _ => .error .typeMismatch
    | none => .error (.missingField kEncryptionKey)

/-- Integrity verification of `unpack_bar_file` (crypto_utils.py lines
330-349): if an `hmac_signature` field is present, re-serialise the structure
without that field canonically and verify the HMAC with `key` (raising
`TamperDetectedException` on mismatch, as `verify_hmac_signature` does); a
missing signature only emits a backward-compatibility warning and is
accepted. -/
def verifyStructSignature (barStruct : JDoc) (key : Bytes) :
    Except UnpackError Unit :=
  match jlookup barStruct kHmacSignature with
  | some (.sc (.str storedSignature)) =>
    if hmacSha256Hex key
        (jsonDumpsCanonical (barStruct.filter (fun kv => kv.1 ≠ kHmacSignature)))
        ≠ storedSignature then
      .error .tamperDetected
    else .ok ()
  | some _ => .error .typeMismatch
  | none => .ok ()

/-- `unpack_bar_file(bar_data, password)` (crypto_utils.py lines 270-351),
after the parsing prefix `parseBarStruct`: read `bar_structure["metadata"]`,
base64-decode `bar_structure["encrypted_data"]`, resolve the key
(`resolveKey`), verify the integrity signature (`verifyStructSignature`),
and return the tuple `(encrypted_data, metadata, key)`. -/
def unpackStruct (barStruct : JDoc) (password : Option Bytes) :
    Except UnpackError UnpackOk :=
  match jlookup barStruct kMetadata with
  | none => .error (.missingField kMetadata)
  | some metadata =>
    match jlookup barStruct kEncryptedData with
    | some (JVal.sc (.str s)) =>
      match b64decode s with
      | some encryptedData =>
        match resolveKey barStruct metadata password with
        | .error e => .error e
        | .ok key =>
          match verifyStructSignature barStruct key with
          | .error e => .error e
          | .ok _ => .ok ⟨encryptedData, metadata, key⟩
      | none => .error .decodeFailure
    | some _ => .error .typeMismatch
    | none => .error (.missingField kEncryptedData)

/-- `unpack_bar_file` in full: parse, then interpret the structure. -/
def unpackBarFile (barData : Bytes) (password : Option Bytes := none) :
    Except UnpackError UnpackOk :=
  match parseBarStruct barData with
  | .error e => .error e
  | .ok barStruct => unpackStruct barStruct password

/-! ## Helper facts about the structure keys and the parse of a packed file -/

theorem kEncryptedData_ne_kMetadata : kEncryptedData ≠ kMetadata := by decide

theorem kEncryptionMethod_ne_kMetadata : kEncryptionMethod ≠ kMetadata := by decide

theorem kEncryptionMethod_ne_kEncryptedData : kEncryptionMethod ≠ kEncryptedData := by decide

theorem kSalt_ne_kMetadata : kSalt ≠ kMetadata := by decide

theorem kSalt_ne_kEncryptedData : kSalt ≠ kEncryptedData := by decide

theorem kSalt_ne_kEncryptionMethod : kSalt ≠ kEncryptionMethod := by decide

theorem kEncryptionKey_ne_kMetadata : kEncryptionKey ≠ kMetadata := by decide

theorem kEncryptionKey_ne_kEncryptedData : kEncryptionKey ≠ kEncryptedData := by decide

theorem kEncryptionKey_ne_kEncryptionMethod : kEncryptionKey ≠ kEncryptionMethod := by decide

theorem kHmacSignature_ne_kMetadata : kHmacSignature ≠ kMetadata := by decide

theorem kHmacSignature_ne_kEncryptedData : kHmacSignature ≠ kEncryptedData := by decide

theorem kHmacSignature_ne_kEncryptionMethod : kHmacSignature ≠ kEncryptionMethod := by decide

theorem kHmacSignature_ne_kSalt : kHmacSignature ≠ kSalt := by decide

theorem kHmacSignature_ne_kEncryptionKey : kHmacSignature ≠ kEncryptionKey := by decide

theorem kKeyStored_ne_kPasswordDerived : kKeyStored ≠ kPasswordDerived := by decide

theorem kMetadata_ne_kHmacSignature : kMetadata ≠ kHmacSignature := by decide

theorem kEncryptedData_ne_kHmacSignature : kEncryptedData ≠ kHmacSignature := by decide

theorem kEncryptionMethod_ne_kHmacSignature : kEncryptionMethod ≠ kHmacSignature := by decide

theorem kSalt_ne_kHmacSignature : kSalt ≠ kHmacSignature := by decide

theorem kEncryptionKey_ne_kHmacSignature : kEncryptionKey ≠ kHmacSignature := by decide

/-- The `BAR_FILE_V1` header is recognised on every packed file. -/
theorem barHeader_isPrefixOf_append (l : Bytes) :
    barHeader.isPrefixOf (barHeader ++ l) = true := by
  simp [List.isPrefixOf_iff_prefix]

/-- Stripping the 12 header bytes recovers the obfuscated payload. -/
theorem drop_twelve_append (l : Bytes) : (barHeader ++ l).drop 12 = l := rfl

/-- Parsing inverts `finishPack`: the parse of a packed container is the
signed structure (the pre-signature fields plus the `hmac_signature` entry). -/
theorem parseBarStruct_finishPack (fields : JDoc) (key : Bytes) :
    parseBarStruct (finishPack fields key) =
      .ok (fields ++
        [(kHmacSignature,
          JVal.sc (.str (hmacSha256Hex key (jsonDumpsCanonical fields))))]) := by
  unfold parseBarStruct finishPack
  rw [if_pos (barHeader_isPrefixOf_append _), drop_twelve_append,
    b64decode_b64encode]
  simp [jsonLoads_jsonDumpsPretty]

/-! ## Seal composition (route layer, app.py lines 367-379) -/

/-- The seal composition used by the `/seal` route (app.py lines 367-379):
with a password, `encrypt_and_pack_with_password`; without, encrypt under the
given (random) key and `pack_bar_file` in `key_stored` mode. -/
def sealBarFile (fileData : Bytes) (metadata : JObj) (key : Bytes)
    (password : Option Bytes) (salt : Bytes) : Except PackError Bytes :=
  match password with
  | some p => (encryptAndPackWithPassword fileData metadata p salt).map (fun r => r.1)
  | none => packBarFile (fernetEncrypt fileData key) metadata key none none

/-- The key under which a sealed container's payload is encrypted:
the password-derived key in `password_derived` mode, the supplied random key
in `key_stored` mode. -/
def sealedKey (key : Bytes) (password : Option Bytes) (salt : Bytes) : Bytes :=
  match password with
  | some p => deriveKeyFromPassword p salt
  | none => key

/-- **C2**: round-trip.  For every plaintext `P`, metadata dictionary `md`,
key, salt, and optional password `pw`, opening a container produced by
sealing — `unpack_bar_file` applied to the output of `pack_bar_file`,
followed by decryption — with the same `pw` returns exactly `P`, and the
returned metadata equals `md` in every field (the codec itself never touches
counters); in particular the integrity-tag (HMAC) verification inside the
open path succeeds on the unmodified sealed container.  The hypothesis asks
that a truthy password is supplied in password mode and that the metadata's
`password_hash` field, when present, is the hash the sealer stores for that
password (app.py lines 337-365 / `encryption_service.py` lines 58-83). -/
theorem pack_unpack_roundtrip (P : Bytes) (md : JObj) (key salt : Bytes)
    (pw : Option Bytes)
    (hpw : ∀ p, pw = some p → p ≠ [] ∧
      ∀ h, jlookup md kPasswordHash = some h → h = JScalar.str (sha256Hex p)) :
    ∃ bar, sealBarFile P md key pw salt = .ok bar ∧
      unpackBarFile bar pw =
        .ok ⟨fernetEncrypt P (sealedKey key pw salt), JVal.obj md,
          sealedKey key pw salt⟩ ∧
      fernetDecrypt (fernetEncrypt P (sealedKey key pw salt))
        (sealedKey key pw salt) = some P := by
  cases pw with
  | none =>
    refine ⟨_, rfl, ?_, fernetDecrypt_fernetEncrypt _ _⟩
    show unpackBarFile (finishPack
      [(kMetadata, JVal.obj md),
       (kEncryptedData, JVal.sc (.str (b64encode (fernetEncrypt P key)))),
       (kEncryptionMethod, JVal.sc (.str kKeyStored)),
       (kEncryptionKey, JVal.sc (.str (b64encode key)))] key) none = _
    unfold unpackBarFile
    rw [parseBarStruct_finishPack]
    simp only [List.cons_append, List.nil_append]
    simp [unpackStruct, resolveKey, verifyStructSignature, sealedKey,
      b64decode_b64encode, kEncryptedData_ne_kMetadata,
      kEncryptionMethod_ne_kMetadata, kEncryptionMethod_ne_kEncryptedData,
      kEncryptionKey_ne_kMetadata, kEncryptionKey_ne_kEncryptedData,
      kEncryptionKey_ne_kEncryptionMethod, kHmacSignature_ne_kMetadata,
      kHmacSignature_ne_kEncryptedData, kHmacSignature_ne_kEncryptionMethod,
      kHmacSignature_ne_kEncryptionKey, kKeyStored_ne_kPasswordDerived,
      kMetadata_ne_kHmacSignature, kEncryptedData_ne_kHmacSignature,
      kEncryptionMethod_ne_kHmacSignature, kEncryptionKey_ne_kHmacSignature,
      List.filter_cons]
  | some p =>
    obtain ⟨hp, hmd⟩ := hpw p rfl
    have hpt : pwTruthy (some p) = true := by
      cases p with
      | nil => exact absurd rfl hp
      | cons a l => rfl
    refine ⟨finishPack
        [(kMetadata, JVal.obj md),
         (kEncryptedData, JVal.sc (.str (b64encode
           (fernetEncrypt P (deriveKeyFromPassword p salt))))),
         (kEncryptionMethod, JVal.sc (.str kPasswordDerived)),
         (kSalt, JVal.sc (.str (b64encode salt)))]
        (deriveKeyFromPassword p salt), ?_, ?_, fernetDecrypt_fernetEncrypt _ _⟩
    · show (encryptAndPackWithPassword P md p salt).map (fun r => r.1) = _
      unfold encryptAndPackWithPassword packBarFile
      rw [hpt]
      rfl
    · show unpackBarFile (finishPack
        [(kMetadata, JVal.obj md),
         (kEncryptedData, JVal.sc (.str (b64encode
           (fernetEncrypt P (deriveKeyFromPassword p salt))))),
         (kEncryptionMethod, JVal.sc (.str kPasswordDerived)),
         (kSalt, JVal.sc (.str (b64encode salt)))]
        (deriveKeyFromPassword p salt)) (some p) = _
      unfold unpackBarFile
      rw [parseBarStruct_finishPack]
      simp only [List.cons_append, List.nil_append]
      rcases hq : jlookup md kPasswordHash with _ | h
      · simp [unpackStruct, resolveKey, saltPhase, verifyStructSignature,
          metadataPasswordHash, sealedKey, b64decode_b64encode, hpt, hq,
          kEncryptedData_ne_kMetadata, kEncryptionMethod_ne_kMetadata,
          kEncryptionMethod_ne_kEncryptedData, kSalt_ne_kMetadata,
          kSalt_ne_kEncryptedData, kSalt_ne_kEncryptionMethod,
          kHmacSignature_ne_kMetadata, kHmacSignature_ne_kEncryptedData,
          kHmacSignature_ne_kEncryptionMethod, kHmacSignature_ne_kSalt,
          kMetadata_ne_kHmacSignature, kEncryptedData_ne_kHmacSignature,
          kEncryptionMethod_ne_kHmacSignature, kSalt_ne_kHmacSignature,
          List.filter_cons]
      · have hh := hmd h hq
        subst hh
        simp [unpackStruct, resolveKey, saltPhase, verifyStructSignature,
          metadataPasswordHash, sealedKey, b64decode_b64encode, hpt, hq,
          kEncryptedData_ne_kMetadata, kEncryptionMethod_ne_kMetadata,
          kEncryptionMethod_ne_kEncryptedData, kSalt_ne_kMetadata,
          kSalt_ne_kEncryptedData, kSalt_ne_kEncryptionMethod,
          kHmacSignature_ne_kMetadata, kHmacSignature_ne_kEncryptedData,
          kHmacSignature_ne_kEncryptionMethod, kHmacSignature_ne_kSalt,
          kMetadata_ne_kHmacSignature, kEncryptedData_ne_kHmacSignature,
          kEncryptionMethod_ne_kHmacSignature, kSalt_ne_kHmacSignature,
          List.filter_cons]

/-- Witness for C2 at a concrete sealed container (password mode, metadata
carrying the matching password hash). -/
theorem pack_unpack_roundtrip_witness :
    ∃ bar, sealBarFile [1, 2, 3] [(kPasswordHash, JScalar.str (sha256Hex [7]))]
        [5] (some [7]) [9] = .ok bar ∧
      unpackBarFile bar (some [7]) =
        .ok ⟨fernetEncrypt [1, 2, 3] (sealedKey [5] (some [7]) [9]),
          JVal.obj [(kPasswordHash, JScalar.str (sha256Hex [7]))],
          sealedKey [5] (some [7]) [9]⟩ ∧
      fernetDecrypt (fernetEncrypt [1, 2, 3] (sealedKey [5] (some [7]) [9]))
        (sealedKey [5] (some [7]) [9]) = some [1, 2, 3] :=
  pack_unpack_roundtrip [1, 2, 3] [(kPasswordHash, JScalar.str (sha256Hex [7]))]
    [5] [9] (some [7]) (by
      intro q hq
      cases hq
      refine ⟨by decide, ?_⟩
      intro h hh
      have hv : some (JScalar.str (sha256Hex [7])) = some h := hh
      cases hv
      rfl)

/-- **C3**: wrong password before wrong tamper.  For every container sealed in
`password_derived` mode whose metadata carries a password verification hash,
opening (`unpack_bar_file`) with an incorrect (truthy) password fails with
`ValueError("Invalid password")` — the model's `InvalidCredential` — and not
with `TamperDetectedException`: the hash of the supplied password is compared
against the stored hash before key derivation and before integrity-tag
verification (crypto_utils.py lines 306-324). -/
theorem wrong_password_invalid_credential (P : Bytes) (md : JObj)
    (salt p q : Bytes) (key : Bytes)
    (hp : p ≠ []) (hq : q ≠ []) (hne : q ≠ p)
    (hmd : jlookup md kPasswordHash = some (JScalar.str (sha256Hex p))) :
    ∃ bar, sealBarFile P md key (some p) salt = .ok bar ∧
      unpackBarFile bar (some q) = .error .invalidPassword := by
  have hpt : pwTruthy (some p) = true := by
    cases p with
    | nil => exact absurd rfl hp
    | cons a l => rfl
  have hqt : pwTruthy (some q) = true := by
    cases q with
    | nil => exact absurd rfl hq
    | cons a l => rfl
  have hhash : sha256Hex q ≠ sha256Hex p := by
    simp [sha256Hex, hne]
  refine ⟨finishPack
      [(kMetadata, JVal.obj md),
       (kEncryptedData, JVal.sc (.str (b64encode
         (fernetEncrypt P (deriveKeyFromPassword p salt))))),
       (kEncryptionMethod, JVal.sc (.str kPasswordDerived)),
       (kSalt, JVal.sc (.str (b64encode salt)))]
      (deriveKeyFromPassword p salt), ?_, ?_⟩
  · show (encryptAndPackWithPassword P md p salt).map (fun r => r.1) = _
    unfold encryptAndPackWithPassword packBarFile
    rw [hpt]
    rfl
  · unfold unpackBarFile
    rw [parseBarStruct_finishPack]
    simp only [List.cons_append, List.nil_append]
    simp [unpackStruct, resolveKey, metadataPasswordHash, hqt, hmd, hhash,
      b64decode_b64encode,
      kEncryptedData_ne_kMetadata, kEncryptionMethod_ne_kMetadata,
      kEncryptionMethod_ne_kEncryptedData]

/-- Witness for C3: a concrete password-protected container opened with the
wrong password fails with `Invalid password`. -/
theorem wrong_password_invalid_credential_witness :
    ∃ bar, sealBarFile [1] [(kPasswordHash, JScalar.str (sha256Hex [7]))]
        [5] (some [7]) [9] = .ok bar ∧
      unpackBarFile bar (some [8]) = .error .invalidPassword :=
  wrong_password_invalid_credential [1] [(kPasswordHash, JScalar.str (sha256Hex [7]))]
    [9] [7] [8] [5] (by decide) (by decide) (by decide) (by decide)

/-- **C9**: embedded-key containers never consult the password.  For every
container bytes whose parsed structure does not carry
`encryption_method = "password_derived"` (so `"key_stored"` or an absent
field, which `unpack_bar_file` defaults to `"key_stored"`), unpacking returns
the identical result for every value of the password argument, including
`None` — regardless of what the metadata claims about password protection
(crypto_utils.py lines 303-328). -/
theorem keyStored_ignores_password (b : Bytes) (pw1 pw2 : Option Bytes)
    (h : ∀ doc, parseBarStruct b = .ok doc →
      (jlookup doc kEncryptionMethod).getD (JVal.sc (.str kKeyStored)) ≠
        JVal.sc (.str kPasswordDerived)) :
    unpackBarFile b pw1 = unpackBarFile b pw2 := by
  unfold unpackBarFile
  cases hp : parseBarStruct b with
  | error e => rfl
  | ok doc =>
    have hrk : ∀ m, resolveKey doc m pw1 = resolveKey doc m pw2 := by
      intro m
      unfold resolveKey
      rw [if_neg (h doc hp), if_neg (h doc hp)]
    unfold unpackStruct
    simp only [hrk]

/-- Witness for C9: a concrete `key_stored` container unpacks identically with
and without a password. -/
theorem keyStored_ignores_password_witness :
    unpackBarFile (finishPack
      [(kMetadata, JVal.obj []),
       (kEncryptedData, JVal.sc (.str (b64encode [1]))),
       (kEncryptionMethod, JVal.sc (.str kKeyStored)),
       (kEncryptionKey, JVal.sc (.str (b64encode [5])))] [5]) (some [7]) =
    unpackBarFile (finishPack
      [(kMetadata, JVal.obj []),
       (kEncryptedData, JVal.sc (.str (b64encode [1]))),
       (kEncryptionMethod, JVal.sc (.str kKeyStored)),
       (kEncryptionKey, JVal.sc (.str (b64encode [5])))] [5]) none :=
  keyStored_ignores_password _ (some [7]) none (by
    intro doc hd
    rw [parseBarStruct_finishPack] at hd
    cases hd
    decide)

/-- If the signature verification phase of `unpack_bar_file` accepts, the
structure either carries no `hmac_signature` field (legacy container) or
carries exactly the HMAC of its own canonical serialisation without that
field, under the resolved key. -/
theorem verify_ok_shape (doc : JDoc) (key : Bytes)
    (h : verifyStructSignature doc key = .ok ()) :
    jlookup doc kHmacSignature = none ∨
    jlookup doc kHmacSignature = some (JVal.sc (.str (hmacSha256Hex key
      (jsonDumpsCanonical (doc.filter (fun kv => kv.1 ≠ kHmacSignature)))))) := by
  unfold verifyStructSignature at h
  split at h
  · rename_i s hs
    split at h
    · exact absurd h (by simp)
    · rename_i heq
      right
      rw [hs]
      simp only [not_not] at heq
      rw [heq]
  · exact absurd h (by simp)
  · left; assumption

/-- A successful `unpackStruct` implies its signature verification accepted
under the returned key. -/
theorem unpack_ok_verified (doc : JDoc) (pw : Option Bytes) (r : UnpackOk)
    (hok : unpackStruct doc pw = .ok r) :
    verifyStructSignature doc r.key = .ok () := by
  unfold unpackStruct at hok
  split at hok
  · exact absurd hok (by simp)
  · split at hok
    · split at hok
      · split at hok
        · exact absurd hok (by simp)
        · rename_i key hkey
          split at hok
          · exact absurd hok (by simp)
          · rename_i u hv
            cases hok
            cases u
            exact hv
      · exact absurd hok (by simp)
    · exact absurd hok (by simp)
    · exact absurd hok (by simp)

/-- **C4** (amended): `unpack_bar_file` never silently returns from a
modified envelope.  For *any* container bytes (however tampered), if
unpacking succeeds then the parsed structure either lacks an integrity tag
entirely (pre-HMAC legacy format, accepted with only a warning) or its
stored `hmac_signature` equals the HMAC — collision-free in the model — of
the structure's own canonical serialisation under the returned key, i.e. the
integrity tag verified.  Together with `tamper_flip_counterexample` (a
header-byte flip raises `ValueError("Invalid BAR file format")`, not
`TamperDetectedException`) this settles the claim: byte flips are always
caught, but as `FormatError`/decode errors or `TamperDetected` depending on
where they land, and wrong plaintext is never silently returned from a
signed envelope. -/
theorem unpack_ok_integrity (b : Bytes) (pw : Option Bytes)
    (r : UnpackOk) (doc : JDoc)
    (hok : unpackBarFile b pw = .ok r) (hp : parseBarStruct b = .ok doc) :
    jlookup doc kHmacSignature = none ∨
    jlookup doc kHmacSignature = some (JVal.sc (.str (hmacSha256Hex r.key
      (jsonDumpsCanonical (doc.filter (fun kv => kv.1 ≠ kHmacSignature)))))) := by
  have hs : unpackStruct doc pw = .ok r := by
    unfold unpackBarFile at hok
    rw [hp] at hok
    exact hok
  exact verify_ok_shape doc r.key (unpack_ok_verified doc pw r hs)

set_option maxRecDepth 8192 in
/-- Witness for the amended C4 at a concrete packed container. -/
theorem unpack_ok_integrity_witness :
    jlookup
      ([(kMetadata, JVal.obj []),
        (kEncryptedData, JVal.sc (.str (b64encode [1]))),
        (kEncryptionMethod, JVal.sc (.str kKeyStored)),
        (kEncryptionKey, JVal.sc (.str (b64encode [5])))] ++
       [(kHmacSignature, JVal.sc (.str (hmacSha256Hex [5] (jsonDumpsCanonical
         [(kMetadata, JVal.obj []),
          (kEncryptedData, JVal.sc (.str (b64encode [1]))),
          (kEncryptionMethod, JVal.sc (.str kKeyStored)),
          (kEncryptionKey, JVal.sc (.str (b64encode [5])))]))))])
      kHmacSignature = none ∨
    jlookup
      ([(kMetadata, JVal.obj []),
        (kEncryptedData, JVal.sc (.str (b64encode [1]))),
        (kEncryptionMethod, JVal.sc (.str kKeyStored)),
        (kEncryptionKey, JVal.sc (.str (b64encode [5])))] ++
       [(kHmacSignature, JVal.sc (.str (hmacSha256Hex [5] (jsonDumpsCanonical
         [(kMetadata, JVal.obj []),
          (kEncryptedData, JVal.sc (.str (b64encode [1]))),
          (kEncryptionMethod, JVal.sc (.str kKeyStored)),
          (kEncryptionKey, JVal.sc (.str (b64encode [5])))]))))])
      kHmacSignature =
      some (JVal.sc (.str (hmacSha256Hex
        (UnpackOk.mk [1] (JVal.obj []) [5]).key
        (jsonDumpsCanonical
          ((([(kMetadata, JVal.obj []),
              (kEncryptedData, JVal.sc (.str (b64encode [1]))),
              (kEncryptionMethod, JVal.sc (.str kKeyStored)),
              (kEncryptionKey, JVal.sc (.str (b64encode [5])))] ++
             [(kHmacSignature, JVal.sc (.str (hmacSha256Hex [5] (jsonDumpsCanonical
               [(kMetadata, JVal.obj []),
                (kEncryptedData, JVal.sc (.str (b64encode [1]))),
                (kEncryptionMethod, JVal.sc (.str kKeyStored)),
                (kEncryptionKey, JVal.sc (.str (b64encode [5])))]))))]) :
            JDoc).filter (fun kv => kv.1 ≠ kHmacSignature)))))) :=
  unpack_ok_integrity
    (finishPack
      [(kMetadata, JVal.obj []),
       (kEncryptedData, JVal.sc (.str (b64encode [1]))),
       (kEncryptionMethod, JVal.sc (.str kKeyStored)),
       (kEncryptionKey, JVal.sc (.str (b64encode [5])))] [5])
    none (UnpackOk.mk [1] (JVal.obj []) [5]) _ rfl rfl

set_option maxRecDepth 8192 in
/-- Counterexample to C4 as stated: flipping the first byte of a concrete
sealed container (header byte `B` → `C`, a single-byte modification that
preserves length) makes `unpack_bar_file` raise
`ValueError("Invalid BAR file format")` — a `FormatError` — which is not
`TamperDetectedException`. -/
theorem tamper_flip_counterexample :
    ∃ bar, packBarFile [1] [] [5] none none = .ok bar ∧
      bar.length = (67 :: bar.drop 1).length ∧
      bar ≠ 67 :: bar.drop 1 ∧
      unpackBarFile (67 :: bar.drop 1) none = .error .invalidFormat ∧
      UnpackError.invalidFormat ≠ UnpackError.tamperDetected := by
  refine ⟨_, rfl, by decide, by decide, rfl, by decide⟩

/-! ## Access Policy Engine
(`backend/server_storage.py`, `backend/client_storage.py`, and the `/share`
route of `backend/app.py`)

The storage-layer validators read a fixed set of metadata dictionary fields
(`metadata.get(...)` with defaults); those reads are modelled by the record
`StorageMeta`.  ISO-8601 expiry strings compared through `datetime` are
modelled as integers with the same ordering. -/

/-- The metadata fields consulted by the storage validators:
`expires_at` (nullable timestamp), `max_views` (default 0),
`current_views` (default 0), `password_protected`. -/
structure StorageMeta : Type where
  expiresAt : Option Int
  maxViews : Int
  currentViews : Int
  passwordProtected : Bool
  deriving DecidableEq, Repr

/-- The access-denial reasons appended by the validators, as codes for the
message strings `"File has expired"`, `"Maximum views reached (c/m)"` and
`"Password required"`. -/
inductive AccessError : Type where
  | expired
  | maxViewsReached
  | passwordRequired
  deriving DecidableEq, Repr

/-- `validate_server_access(metadata, password, skip_password_check)`
(server_storage.py lines 52-92): appends `"File has expired"` when
`now > expires_at`, then `"Maximum views reached"` when `max_views > 0` and
`current_views >= max_views`, then `"Password required"` when
password-protected and no password was given; returns
`(len(errors) == 0, errors)`. -/
def validateServerAccess (m : StorageMeta) (password : Option Bytes)
    (skipPasswordCheck : Bool) (now : Int) : Bool × List AccessError :=
  let errors : List AccessError :=
    (match m.expiresAt with
     | some t => if now > t then [.expired] else []
     | none => []) ++
    (if m.maxViews > 0 ∧ m.currentViews ≥ m.maxViews then [.maxViewsReached] else []) ++
    (if ¬skipPasswordCheck ∧ m.passwordProtected ∧ ¬pwTruthy password then
      [.passwordRequired] else [])
  (errors.isEmpty, errors)

/-- `validate_client_access(metadata, password)` (client_storage.py lines
50-76): checks *only* expiry and password presence — the view-count fields of
`StorageMeta` are never read. -/
def validateClientAccess (m : StorageMeta) (password : Option Bytes)
    (now : Int) : Bool × List AccessError :=
  let errors : List AccessError :=
    (match m.expiresAt with
     | some t => if now > t then [.expired] else []
     | none => []) ++
    (if m.passwordProtected ∧ ¬pwTruthy password then [.passwordRequired] else [])
  (errors.isEmpty, errors)

/-- The capability report returned by the storage modules'
`get_storage_info()`. -/
structure StorageInfo : Type where
  storageMode : String
  viewLimitEnforcement : Bool
  expirySupport : Bool
  passwordSupport : Bool
  deriving DecidableEq, Repr

/-- `client_storage.get_storage_info()` (client_storage.py lines 79-92):
explicitly reports that view limits are *not* enforced for client-custody
containers. -/
def clientGetStorageInfo : StorageInfo :=
  { storageMode := "client"
    viewLimitEnforcement := false
    expirySupport := true
    passwordSupport := true }

/-- `server_storage.get_storage_info()` (server_storage.py lines 123-137). -/
def serverGetStorageInfo : StorageInfo :=
  { storageMode := "server"
    viewLimitEnforcement := true
    expirySupport := true
    passwordSupport := true }

/-- The access-denial raised by the `/share` route. -/
inductive ShareError : Type where
  | maxViewsReached (currentViews maxViews : Int)
  | expired
  deriving DecidableEq, Repr

/-- The access-rule sequence of the `/share/{token}` route after password
validation (app.py lines 1009-1051): *first* reject when
`current_views >= max_views` (HTTP 403 `"Maximum views reached"`), only
*then* check the record's `expires_at` and reject with
`"File has expired"`. -/
def shareAccessCheck (currentViews maxViews : Int) (expiresAt : Option Int)
    (now : Int) : Option ShareError :=
  if currentViews ≥ maxViews then some (.maxViewsReached currentViews maxViews)
  else
    match expiresAt with
    | some t => if now > t then some .expired else none
    | none => none

/-- `server_storage.get_views_remaining(metadata)` (server_storage.py lines
116-120): `max(0, max_views - current_views)`. -/
def getViewsRemaining (m : StorageMeta) : Int :=
  max 0 (m.maxViews - m.currentViews)

/-- `server_storage.should_destroy_file(metadata)` (server_storage.py lines
95-107). -/
def shouldDestroyFile (m : StorageMeta) : Bool :=
  m.maxViews > 0 ∧ m.currentViews ≥ m.maxViews

/-! ## View Ledger (`backend/database.py`, `Database.increment_view_count`)

The PostgreSQL path of `increment_view_count` (database.py lines 278-319) is
modelled as the sequence of its store operations, each SQL statement being
one atomic step: the `UPDATE ... SET current_views = current_views + 1 ...
WHERE token = $1 AND destroyed = FALSE RETURNING current_views, max_views`
(one atomic step, `dbUpdateReturning`), and the separate
`UPDATE bar_files SET destroyed = TRUE` issued by `mark_as_destroyed`
(another atomic step, `dbMarkDestroyed`).  The Python between them computes
`views_remaining`/`should_destroy` locally (`incrementFinish`).  The state is
the ledger row for one token (`none` = missing row). -/

/-- A `bar_files` ledger row: `current_views`, `max_views`, `destroyed`. -/
structure LedgerRecord : Type where
  currentViews : Int
  maxViews : Int
  destroyed : Bool
  deriving DecidableEq, Repr

/-- The ledger row for the token under consideration (`none`: no row). -/
abbrev LedgerDB : Type := Option LedgerRecord

/-- Atomic step 1 of `increment_view_count`: the single
`UPDATE ... current_views = current_views + 1 ... WHERE ... destroyed = FALSE
RETURNING current_views, max_views` statement.  Returns the updated state and
the returned row (or `none` when no row matched). -/
def dbUpdateReturning (db : LedgerDB) : LedgerDB × Option (Int × Int) :=
  match db with
  | some r =>
    if r.destroyed then (db, none)
    else (some { r with currentViews := r.currentViews + 1 },
      some (r.currentViews + 1, r.maxViews))
  | none => (db, none)

/-- Atomic step of `mark_as_destroyed` (database.py lines 325-344):
`UPDATE bar_files SET destroyed = TRUE WHERE token = $1`. -/
def dbMarkDestroyed (db : LedgerDB) : LedgerDB :=
  match db with
  | some r => some { r with destroyed := true }
  | none => none

/-- The in-process tail of `increment_view_count` (database.py lines
288-319): with no returned row, `(False, 0, False)`; otherwise
`views_remaining = max(0, max_views - current_views)`,
`should_destroy = current_views >= max_views`, calling `mark_as_destroyed`
when the limit is reached, and returning
`(True, views_remaining, should_destroy)`. -/
def incrementFinish (db : LedgerDB) (row : Option (Int × Int)) :
    LedgerDB × (Bool × Int × Bool) :=
  match row with
  | none => (db, (false, 0, false))
  | some (currentViews, maxViews) =>
    let viewsRemaining := max 0 (maxViews - currentViews)
    let shouldDestroy := currentViews ≥ maxViews
    if shouldDestroy then (dbMarkDestroyed db, (true, viewsRemaining, true))
    else (db, (true, viewsRemaining, false))

/-- `Database.increment_view_count` run without interference: step 1 followed
by the in-process tail. -/
def incrementViewCount (db : LedgerDB) : LedgerDB × (Bool × Int × Bool) :=
  let s := dbUpdateReturning db
  incrementFinish s.1 s.2

/-- Counterexample to C5's evaluation-order clause: on a record that is both
expired and view-exhausted (`current_views = max_views = 1`,
`expires_at = 0 < now = 5`), the `/share` route's check sequence rejects with
`"Maximum views reached"`, not `"File has expired"` — the view-exhaustion
check at app.py line 1010 runs *before* the expiry check at line 1026. -/
theorem expiry_precedence_counterexample :
    shareAccessCheck 1 1 (some 0) 5 = some (.maxViewsReached 1 1) ∧
    some (ShareError.maxViewsReached 1 1) ≠ some ShareError.expired := by
  constructor
  · rfl
  · decide

/-- **C5** (amended): a container past `expires_at` with views remaining
(`current_views < max_views`) is rejected as Expired, both by the `/share`
route's check sequence and by `validate_server_access` — whose error list
moreover puts `"File has expired"` first.  (As stated, the claim's clause
that the expiry check takes precedence over the view-exhaustion check in the
access evaluation order is false for the `/share` route: see
`expiry_precedence_counterexample`.) -/
theorem expired_with_views_remaining_rejected_as_expired
    (currentViews maxViews t now : Int) (m : StorageMeta)
    (password : Option Bytes) (skipPasswordCheck : Bool)
    (hviews : currentViews < maxViews) (hexp : now > t)
    (hm : m.expiresAt = some t) :
    shareAccessCheck currentViews maxViews (some t) now = some .expired ∧
    (validateServerAccess m password skipPasswordCheck now).1 = false ∧
    (validateServerAccess m password skipPasswordCheck now).2.head? =
      some .expired := by
  refine ⟨?_, ?_, ?_⟩
  · unfold shareAccessCheck
    rw [if_neg (show ¬currentViews ≥ maxViews by omega)]
    simp [hexp]
  · unfold validateServerAccess
    rw [hm]
    simp [hexp]
  · unfold validateServerAccess
    rw [hm]
    simp [hexp]

/-- Witness for the amended C5 at a concrete expired record with views
remaining. -/
theorem expired_with_views_remaining_witness :
    shareAccessCheck 0 2 (some 10) 20 = some .expired ∧
    (validateServerAccess ⟨some 10, 2, 0, false⟩ none false 20).1 = false ∧
    (validateServerAccess ⟨some 10, 2, 0, false⟩ none false 20).2.head? =
      some .expired :=
  expired_with_views_remaining_rejected_as_expired 0 2 10 20
    ⟨some 10, 2, 0, false⟩ none false (by norm_num) (by norm_num) rfl

/-- **C8**: Client-custody validation enforces only expiry and password and
never view limits.  A client container with no expiry whose password
requirement is met validates successfully at any two times (redeemed twice,
accepted both times); the result of `validate_client_access` is independent
of the view-count fields; and `client_storage.get_storage_info()` explicitly
reports `view_limit_enforcement = False`. -/
theorem client_custody_no_view_limits (m : StorageMeta)
    (password : Option Bytes) (now1 now2 : Int) (v1 v2 v1' v2' : Int)
    (hexp : m.expiresAt = none)
    (hpw : m.passwordProtected = true → pwTruthy password = true) :
    validateClientAccess m password now1 = (true, []) ∧
    validateClientAccess m password now2 = (true, []) ∧
    validateClientAccess { m with maxViews := v1, currentViews := v2 }
        password now1 =
      validateClientAccess { m with maxViews := v1', currentViews := v2' }
        password now1 ∧
    clientGetStorageInfo.viewLimitEnforcement = false := by
  refine ⟨?_, ?_, ?_, rfl⟩
  · unfold validateClientAccess
    rw [hexp]
    by_cases h : m.passwordProtected
    · simp [h, hpw h]
    · simp [h]
  · unfold validateClientAccess
    rw [hexp]
    by_cases h : m.passwordProtected
    · simp [h, hpw h]
    · simp [h]
  · unfold validateClientAccess
    rfl

/-- Witness for C8 at a concrete password-protected, non-expiring client
container. -/
theorem client_custody_no_view_limits_witness :
    validateClientAccess ⟨none, 0, 0, true⟩ (some [7]) 1 = (true, []) ∧
    validateClientAccess ⟨none, 0, 0, true⟩ (some [7]) 2 = (true, []) ∧
    validateClientAccess ⟨none, 3, 4, true⟩ (some [7]) 1 =
      validateClientAccess ⟨none, 5, 6, true⟩ (some [7]) 1 ∧
    clientGetStorageInfo.viewLimitEnforcement = false :=
  client_custody_no_view_limits ⟨none, 0, 0, true⟩ (some [7]) 1 2 3 4 5 6
    rfl (fun _ => rfl)

/-- **C1**: refutation of at-most-one-success under concurrency.  On a ledger
record with `max_views = 1, current_views = 0, destroyed = false`, the
interleaving "A's `UPDATE..RETURNING`; B's `UPDATE..RETURNING`; A's tail
(`mark_as_destroyed`); B's tail" — each step one atomic store operation, as
the source executes them — makes *both* concurrent `increment_view_count`
calls return `success = True`.  The increment itself is a single atomic
`UPDATE`, but the exhaustion comparison and the destroyed-flagging are
separate store operations, and the returned success flag does not encode
exhaustion, so exactly-one-success does not hold. -/
theorem increment_race_two_successes :
    (incrementFinish
      (incrementFinish
        (dbUpdateReturning (dbUpdateReturning (some ⟨0, 1, false⟩)).1).1
        (dbUpdateReturning (some ⟨0, 1, false⟩)).2).1
      (dbUpdateReturning (dbUpdateReturning (some ⟨0, 1, false⟩)).1).2).2.1 = true ∧
    (incrementFinish
      (dbUpdateReturning (dbUpdateReturning (some ⟨0, 1, false⟩)).1).1
      (dbUpdateReturning (some ⟨0, 1, false⟩)).2).2.1 = true := by
  decide

/-- The reported `views_remaining` of the ledger increment depends only on
the returned row: 0 with no row, `max(0, max_views - current_views)`
otherwise. -/
theorem incrementFinish_views (db : LedgerDB) (row : Option (Int × Int)) :
    (incrementFinish db row).2.2.1 =
      match row with
      | none => 0
      | some (currentViews, maxViews) => max 0 (maxViews - currentViews) := by
  cases row with
  | none => rfl
  | some p =>
    obtain ⟨cv, mv⟩ := p
    by_cases h : cv ≥ mv
    · simp [incrementFinish, h]
    · simp [incrementFinish, h]

/-- **C10**: the reported number of remaining views is never negative.
`get_views_remaining` is exactly `max(0, max_views - current_views)` (hence
non-negative, and 0 whenever `current_views ≥ max_views`), and
`Database.increment_view_count` reports a non-negative `views_remaining` on
every state — on a live record, `max(0, max_views - (current_views + 1))`. -/
theorem views_remaining_clamped :
    (∀ m : StorageMeta,
      getViewsRemaining m = max 0 (m.maxViews - m.currentViews) ∧
      0 ≤ getViewsRemaining m ∧
      (m.maxViews ≤ m.currentViews → getViewsRemaining m = 0)) ∧
    (∀ db : LedgerDB, 0 ≤ (incrementViewCount db).2.2.1) ∧
    (∀ r : LedgerRecord, r.destroyed = false →
      (incrementViewCount (some r)).2.2.1 =
        max 0 (r.maxViews - (r.currentViews + 1))) := by
  refine ⟨?_, ?_, ?_⟩
  · intro m
    refine ⟨rfl, le_max_left 0 _, ?_⟩
    intro h
    unfold getViewsRemaining
    omega
  · intro db
    rw [show incrementViewCount db =
      incrementFinish (dbUpdateReturning db).1 (dbUpdateReturning db).2 from rfl]
    rw [incrementFinish_views]
    cases h : (dbUpdateReturning db).2 with
    | none => norm_num
    | some p =>
      obtain ⟨cv, mv⟩ := p
      exact le_max_left 0 _
  · intro r hd
    have h1 : dbUpdateReturning (some r) =
        (some { r with currentViews := r.currentViews + 1 },
         some (r.currentViews + 1, r.maxViews)) := by
      simp [dbUpdateReturning, hd]
    rw [show incrementViewCount (some r) =
      incrementFinish (dbUpdateReturning (some r)).1
        (dbUpdateReturning (some r)).2 from rfl, h1]
    rw [incrementFinish_views]

/-- Witness for C10: a record with `current_views` beyond `max_views` still
reports 0 remaining views. -/
theorem views_remaining_clamped_witness :
    getViewsRemaining ⟨none, 1, 5, false⟩ = 0 :=
  (views_remaining_clamped.1 ⟨none, 1, 5, false⟩).2.2 (by norm_num)

/-! ## Credential Guard (`backend/security.py`) -/

/-- One recorded password attempt: `{"timestamp": ..., "success": ...}`
(security.py line 16). -/
structure Attempt : Type where
  timestamp : Int
  success : Bool
  deriving DecidableEq, Repr

/-- The in-memory `password_attempts` defaultdict (security.py line 17),
keyed by `"ip:token"` strings. -/
abbrev AttemptStore : Type := List (Bytes × List Attempt)

/-- `MAX_PASSWORD_ATTEMPTS` (security.py line 20). -/
def MAX_PASSWORD_ATTEMPTS : Nat := 5

/-- `LOCKOUT_DURATION_MINUTES` (security.py line 21); timestamps are
modelled in minutes. -/
def LOCKOUT_DURATION_MINUTES : Int := 60

/-- `PROGRESSIVE_DELAY_ENABLED` (security.py line 22). -/
def PROGRESSIVE_DELAY_ENABLED : Bool := true

/-- The store key `f"{client_ip}:{resource_id}" if resource_id else
client_ip` (security.py lines 176 and 224); 58 is `':'`. -/
def attemptKey (clientIp : Bytes) (resourceId : Option Bytes) : Bytes :=
  match resourceId with
  | some r => clientIp ++ [58] ++ r
  | none => clientIp

/-- `password_attempts[key]` read with defaultdict semantics. -/
def storeGet (st : AttemptStore) (k : Bytes) : List Attempt :=
  (jlookup st k).getD []

/-- `password_attempts[key] = v`. -/
def storePut (st : AttemptStore) (k : Bytes) (v : List Attempt) : AttemptStore :=
  match st with
  | [] => [(k, v)]
  | (k', v') :: rest =>
    if k = k' then (k, v) :: rest else (k', v') :: storePut rest k v

/-- Reading back a written store key. -/
theorem storeGet_storePut (st : AttemptStore) (k : Bytes) (v : List Attempt) :
    storeGet (storePut st k v) k = v := by
  induction st with
  | nil => simp [storePut, storeGet, jlookup]
  | cons e rest ih =>
    obtain ⟨k', v'⟩ := e
    by_cases h : k = k'
    · simp [storePut, h, storeGet, jlookup]
    · simp only [storePut, if_neg h]
      simp only [storeGet, jlookup, if_neg h] at ih ⊢
      exact ih

/-- The lockout error: `HTTPException(status_code=429)` raised by
`check_password_brute_force`. -/
inductive GuardError : Type where
  | lockedOut
  deriving DecidableEq, Repr

/-- `check_password_brute_force(client_ip, resource_id)` (security.py lines
162-212): prune attempts older than the lockout window, count the remaining
failures, raise 429 when they reach `MAX_PASSWORD_ATTEMPTS`, else return
`(False, failed_count)` (the message string is omitted). -/
def check_password_brute_force (st : AttemptStore) (clientIp : Bytes)
    (resourceId : Option Bytes) (now : Int) :
    AttemptStore × Except GuardError (Bool × Nat) :=
  let key := attemptKey clientIp resourceId
  let lockoutCutoff := now - LOCKOUT_DURATION_MINUTES
  let pruned := (storeGet st key).filter (fun a => a.timestamp > lockoutCutoff)
  let st' := storePut st key pruned
  let failedAttempts := pruned.filter (fun a => !a.success)
  if failedAttempts.length ≥ MAX_PASSWORD_ATTEMPTS then (st', .error .lockedOut)
  else (st', .ok (false, failedAttempts.length))

/-- `record_password_attempt(client_ip, success, resource_id)` (security.py
lines 215-236): append the attempt; on success, keep only the successful
attempts for this key (clearing the failure history). -/
def record_password_attempt (st : AttemptStore) (clientIp : Bytes)
    (success : Bool) (resourceId : Option Bytes) (now : Int) : AttemptStore :=
  let key := attemptKey clientIp resourceId
  let attempts := storeGet st key ++ [⟨now, success⟩]
  let attempts := if success then attempts.filter (fun a => a.success) else attempts
  storePut st key attempts

/-- `get_progressive_delay(failed_attempts)` (security.py lines 239-257):
`min(2^(failures-1), 30)` seconds, 0 below one failure or when disabled. -/
def get_progressive_delay (failedAttempts : Nat) : Nat :=
  if ¬PROGRESSIVE_DELAY_ENABLED ∨ failedAttempts < 1 then 0
  else min (2 ^ (failedAttempts - 1)) 30

/-- `check_and_delay_password_attempt(client_ip, resource_id)` (security.py
lines 260-285): check the lockout, then apply the progressive delay
(`time.sleep` is modelled by returning the slept duration). -/
def check_and_delay_password_attempt (st : AttemptStore) (clientIp : Bytes)
    (resourceId : Option Bytes) (now : Int) :
    AttemptStore × Except GuardError (Nat × Nat) :=
  match check_password_brute_force st clientIp resourceId now with
  | (st', .error e) => (st', .error e)
  | (st', .ok r) =>
    let failedCount := r.2
    let delay := if failedCount > 0 then get_progressive_delay failedCount else 0
    (st', .ok (failedCount, delay))

/-- Keeping only successful attempts leaves no failures behind. -/
theorem filter_not_success_of_filter_success (l : List Attempt) :
    (l.filter (fun a => a.success)).filter (fun a => !a.success) = [] := by
  induction l with
  | nil => rfl
  | cons a tl ih =>
    cases h : a.success <;> simp [List.filter_cons, h, ih]

/-- **C6**: lockout and reset.  For every (identity, resource) pair: when
the failed attempts recorded within the rolling lockout window reach
`MAX_PASSWORD_ATTEMPTS` (5), the next `check_and_delay_password_attempt`
call raises the 429 lockout; and recording a single successful attempt for
that pair resets its stored failure count to 0. -/
theorem lockout_after_max_failures_and_reset_on_success :
    (∀ (st : AttemptStore) (ip : Bytes) (rid : Option Bytes) (now : Int),
      MAX_PASSWORD_ATTEMPTS ≤
        (((storeGet st (attemptKey ip rid)).filter
            (fun a => a.timestamp > now - LOCKOUT_DURATION_MINUTES)).filter
          (fun a => !a.success)).length →
      (check_and_delay_password_attempt st ip rid now).2 = .error .lockedOut) ∧
    (∀ (st : AttemptStore) (ip : Bytes) (rid : Option Bytes) (now : Int),
      ((storeGet (record_password_attempt st ip true rid now)
          (attemptKey ip rid)).filter (fun a => !a.success)).length = 0) := by
  constructor
  · intro st ip rid now h
    unfold check_and_delay_password_attempt check_password_brute_force
    rw [if_pos h]
  · intro st ip rid now
    unfold record_password_attempt
    simp [storeGet_storePut, filter_not_success_of_filter_success]

/-- Witness for C6: a pair with five recorded in-window failures is locked
out, and one success clears the failures. -/
theorem lockout_and_reset_witness :
    (check_and_delay_password_attempt
      [([1], [⟨0, false⟩, ⟨1, false⟩, ⟨2, false⟩, ⟨3, false⟩, ⟨4, false⟩])]
      [1] none 10).2 = .error .lockedOut ∧
    ((storeGet (record_password_attempt [([1], [⟨0, false⟩])] [1] true none 10)
        (attemptKey [1] none)).filter (fun a => !a.success)).length = 0 :=
  ⟨lockout_after_max_failures_and_reset_on_success.1
      [([1], [⟨0, false⟩, ⟨1, false⟩, ⟨2, false⟩, ⟨3, false⟩, ⟨4, false⟩])]
      [1] none 10 (by decide),
   lockout_after_max_failures_and_reset_on_success.2
      [([1], [⟨0, false⟩])] [1] none 10⟩

/-! ## Secure Erase (`crypto_utils.py`, `secure_delete_file`, lines 128-171)

The file system is modelled as the state of the one target file (`none` =
absent).  The try-block performs `passes` random overwrite passes, a zero
pass, and the unlink, in that order; `failAt = some k` injects an exception
at step `k` (an I/O failure mid-overwrite, or at the unlink), leaving the
partially overwritten content in place, at which point the `except` handler
(lines 166-171) checks `os.path.exists` and falls back to a plain
`os.remove` before re-raising.  The fallback `os.remove` itself is assumed
to succeed — failures are injected into the secure-overwrite sequence, which
is what the claim is about. -/

/-- The target file: absent, or present with its content bytes. -/
abbrev FileState : Type := Option Bytes

/-- Whether `secure_delete_file` returned normally or re-raised the caught
exception (`raise e`, line 171). -/
inductive DeleteOutcome : Type where
  | ok
  | raised
  deriving DecidableEq, Repr

/-- The file content at the moment an exception interrupts step `k` of the
try-block: untouched before the first write, the last random pass's bytes
during the overwrite passes, zeros at the unlink step. -/
def contentAtStep (content : Bytes) (rand : Nat → Bytes) (passes k : Nat) :
    Bytes :=
  if k = 0 then content
  else if k ≤ passes then (rand (k - 1)).take content.length
  else List.replicate content.length 0

/-- The try-block of `secure_delete_file` (lines 144-164): `passes` random
passes (each `f.write(os.urandom(file_size))` + flush + fsync), the zero
pass, then `os.remove`.  Returns the resulting file state and whether the
block completed (`true`) or an exception escaped (`false`). -/
def secureDeleteTry (content : Bytes) (passes : Nat) (rand : Nat → Bytes)
    (failAt : Option Nat) : FileState × Bool :=
  match failAt with
  | some k =>
    if k ≤ passes + 1 then (some (contentAtStep content rand passes k), false)
    else (none, true)
  | none => (none, true)

/-- `secure_delete_file(file_path, passes)` (crypto_utils.py lines 128-171):
an absent file is a no-op (`return`, line 142); otherwise run the try-block,
and on an escaping exception run the handler — `if os.path.exists:
os.remove` — and re-raise. -/
def secure_delete_file (fs : FileState) (passes : Nat) (rand : Nat → Bytes)
    (failAt : Option Nat) : FileState × DeleteOutcome :=
  match fs with
  | none => (none, .ok)
  | some content =>
    match secureDeleteTry content passes rand failAt with
    | (fs', true) => (fs', .ok)
    | (fs', false) =>
      match fs' with
      | some _ => (none, .raised)
      | none => (none, .raised)

/-- After any call to `secure_delete_file`, the file is gone: either the
secure path completed (overwrites + unlink), or the handler's ordinary
delete removed it before re-raising. -/
theorem secure_delete_final_none (fs : FileState) (passes : Nat)
    (rand : Nat → Bytes) (failAt : Option Nat) :
    (secure_delete_file fs passes rand failAt).1 = none := by
  cases fs with
  | none => rfl
  | some content =>
    unfold secure_delete_file secureDeleteTry
    cases failAt with
    | none => rfl
    | some k =>
      by_cases h : k ≤ passes + 1
      · simp [h]
      · simp [h]

/-- **C7**: `secure_delete_file` is idempotent and never leaves a partially
overwritten file behind.  Erasing an absent file is a no-op returning
normally (not an error); after *any* call — whatever pass count, random
data, or injected mid-overwrite failure — the file is absent, so two
successive calls on the same now-absent object return normally; in
particular, when a failure interrupts the overwrite sequence, the handler's
ordinary delete removes the partially overwritten file instead of leaving it
present. -/
theorem secure_delete_idempotent_never_partial :
    (∀ (passes : Nat) (rand : Nat → Bytes) (failAt : Option Nat),
      secure_delete_file none passes rand failAt = (none, .ok)) ∧
    (∀ (fs : FileState) (passes : Nat) (rand : Nat → Bytes)
        (failAt : Option Nat),
      (secure_delete_file fs passes rand failAt).1 = none) ∧
    (∀ (content : Bytes) (passes passes' : Nat) (rand rand' : Nat → Bytes)
        (failAt failAt' : Option Nat),
      (secure_delete_file
        (secure_delete_file (some content) passes rand failAt).1
        passes' rand' failAt') = (none, .ok)) := by
  refine ⟨fun _ _ _ => rfl, secure_delete_final_none, ?_⟩
  intro content passes passes' rand rand' failAt failAt'
  rw [secure_delete_final_none]
  rfl
